import Mathlib

/-!
Verification development for the ScrappingBot ETL core.

The definitions below are a shallow embedding of the parts of the
repository that the verified properties talk about:

* `src/database/schema.sql` — the `listings` / `areas` tables, the
  `detect_area_from_coordinates` SQL function and the
  `trigger_update_listing_area` trigger (fired BEFORE INSERT OR UPDATE
  on `listings`).
* `src/apps/backend/src/listings/listing.service.ts` — the NestJS
  `ListingService.findAll` read path with its mock-data fallback.
* the Express route `app.get('/listings')` with the analogous fallback.

SQL `DECIMAL` values are embedded as `ℚ` (the trigger computes exact
ratios; column-level rounding on storage is not modelled).  SQL `NULL`
is embedded as `Option.none`, and SQL three-valued comparison
`x > 0` (false on NULL) as `ratPos` below.  Timestamps are abstract
naturals; `NOW()` is an explicit `now` parameter.  PostGIS geometries
are kept abstract: the embedding is parametric in a geometry type `G`
and a containment test `within : Point → G → Bool` standing for
`ST_Within(ST_Point(lon, lat), geometry)`.

Repository components that the specification describes but whose code
is not present under `src/` (the Python `etl/` package: `normalize.py`,
`dedupe.py`, `schema.py`, `loader.py` — only their documentation,
entrypoints and tests are in the tree) are modelled from the
specification text; each such definition is marked
`Modelled from the spec:` in its doc comment.
-/

/-- A PostGIS `GEOMETRY(POINT, 4326)` value: `x` is the longitude
(`ST_X`), `y` the latitude (`ST_Y`). -/
structure Point where
  x : ℚ
  y : ℚ
deriving DecidableEq, Repr

/-- A row of the `areas` table of `src/database/schema.sql`.  The
`geometry` column (`GEOMETRY(MULTIPOLYGON, 4326)`) is kept abstract in
the type parameter `G`. -/
structure AreaRow (G : Type) where
  id : ℕ
  name : String := ""
  city : String := "Montreal"
  geometry : G
deriving DecidableEq, Repr

/-- A row of the `listings` table of `src/database/schema.sql`.
`url_hash` is the `VARCHAR(64) NOT NULL UNIQUE` identity key.  Columns
not constrained by the schema to be non-null are `Option`s. -/
structure ListingRow where
  id : Option String := none
  url_hash : String := ""
  url : String := ""
  title : Option String := none
  price : Option ℚ := none
  currency : Option String := some "CAD"
  price_per_sqm : Option ℚ := none
  area_sqm : Option ℚ := none
  bedrooms : Option ℤ := none
  bathrooms : Option ℚ := none
  property_type : Option String := none
  listing_type : Option String := none
  address : Option String := none
  coordinates : Option Point := none
  area_id : Option ℕ := none
  site_domain : Option String := none
  scraped_at : ℕ := 0
  updated_at : ℕ := 0
  is_active : Bool := true
  yearly_yield : Option ℚ := none
  monthly_rent : Option ℚ := none
deriving DecidableEq, Repr

/-- SQL three-valued `x > 0` collapsed to the trigger's boolean guard:
`NULL > 0` is not true, so a missing value fails the guard. -/
def ratPos (o : Option ℚ) : Bool :=
  match o with
  | some q => decide (0 < q)
  | none => false

/-- SQL division `x / y` under NULL propagation. -/
def ratDiv (x y : Option ℚ) : Option ℚ :=
  match x, y with
  | some a, some b => some (a / b)
  | _, _ => none

/-- SQL multiplication by a constant under NULL propagation. -/
def ratMulC (x : Option ℚ) (c : ℚ) : Option ℚ :=
  match x with
  | some a => some (a * c)
  | none => none

/-- `detect_area_from_coordinates(lat, lon)` of `src/database/schema.sql`:

    SELECT a.id INTO area_id FROM areas a
    WHERE ST_Within(ST_Point(lon, lat), a.geometry) LIMIT 1;

The query has no ORDER BY, so the order in which rows are scanned is
not fixed by SQL; the `scan` argument is the areas table *in the scan
order the database happens to use*. -/
def detect_area_from_coordinates {G : Type} (within : Point → G → Bool)
    (scan : List (AreaRow G)) (lat lon : ℚ) : Option ℕ :=
  (scan.find? (fun a => within ⟨lon, lat⟩ a.geometry)).map (fun a => a.id)

/-- `trigger_update_listing_area()` of `src/database/schema.sql`, fired
BEFORE INSERT OR UPDATE on `listings` and returning the row that is
actually stored:

    IF NEW.coordinates IS NOT NULL AND NEW.area_id IS NULL THEN
      NEW.area_id := detect_area_from_coordinates(ST_Y(...), ST_X(...));
    END IF;
    IF NEW.price > 0 AND NEW.area_sqm > 0 AND NEW.price_per_sqm IS NULL THEN
      NEW.price_per_sqm := NEW.price / NEW.area_sqm;
    END IF;
    IF NEW.listing_type = 'rent' AND NEW.monthly_rent > 0 AND NEW.price > 0 THEN
      NEW.yearly_yield := (NEW.monthly_rent * 12 / NEW.price) * 100;
    END IF;
    NEW.updated_at := NOW();
    RETURN NEW; -/
def trigger_update_listing_area {G : Type} (within : Point → G → Bool)
    (areas : List (AreaRow G)) (now : ℕ) (new : ListingRow) : ListingRow :=
  let s1 :=
    match new.coordinates, new.area_id with
    | some pt, none =>
        { new with area_id := detect_area_from_coordinates within areas pt.y pt.x }
    | _, _ => new
  let s2 :=
    if ratPos s1.price && ratPos s1.area_sqm && s1.price_per_sqm.isNone then
      { s1 with price_per_sqm := ratDiv s1.price s1.area_sqm }
    else s1
  let s3 :=
    if decide (s2.listing_type = some "rent") && ratPos s2.monthly_rent
        && ratPos s2.price then
      { s2 with yearly_yield := ratMulC (ratDiv (ratMulC s2.monthly_rent 12) s2.price) 100 }
    else s2
  { s3 with updated_at := now }

/-- A concrete geometry instantiation used for concrete inputs: an
axis-aligned rectangle with rational corners. -/
structure Rect where
  x1 : ℚ
  x2 : ℚ
  y1 : ℚ
  y2 : ℚ
deriving DecidableEq, Repr

/-- Point-in-rectangle containment, a concrete `within` predicate. -/
def rectContains (pt : Point) (r : Rect) : Bool :=
  decide (r.x1 ≤ pt.x) && decide (pt.x ≤ r.x2) && decide (r.y1 ≤ pt.y)
    && decide (pt.y ≤ r.y2)

/-- Modelled from the spec: the Loader's per-row update (`etl/loader.py`
is not under `src/`).  "Upsert semantics: if a row with the same key
exists, update mutable fields and `updated_at`; otherwise insert a new
row."  The identity of a row (`id`, `url_hash`) and its insert time
(`scraped_at`) are immutable; every other column takes the incoming
row's value. -/
def updateMutableFields (old new : ListingRow) : ListingRow :=
  { new with id := old.id, url_hash := old.url_hash, scraped_at := old.scraped_at }

/-- Modelled from the spec: the Loader's upsert of one ValidatedRecord
(`etl/loader.py` is not under `src/`): "upsert each into the store
keyed by identity key (or URL hash) ... if a row with the same key
exists, update mutable fields and `updated_at`; otherwise insert a new
row with `scraped_at = now`".  The row that is actually written passes
through `trigger_update_listing_area` (BEFORE INSERT OR UPDATE, from
`src/database/schema.sql`); the store is the `listings` table, whose
`url_hash` column is UNIQUE. -/
def loadValidatedRecord {G : Type} (within : Point → G → Bool)
    (areas : List (AreaRow G)) (now : ℕ) (store : List ListingRow)
    (r : ListingRow) : List ListingRow :=
  let new := trigger_update_listing_area within areas now r
  if store.any (fun x => decide (x.url_hash = r.url_hash)) then
    store.map (fun x => if x.url_hash = r.url_hash then updateMutableFields x new else x)
  else
    store ++ [{ new with scraped_at := now }]

/-- The mutable columns of two `listings` rows agree (every column
except `id`, `url_hash` and `scraped_at`). -/
def mutableFieldsEq (x n : ListingRow) : Prop :=
  x.url = n.url ∧ x.title = n.title ∧ x.price = n.price ∧ x.currency = n.currency ∧
  x.price_per_sqm = n.price_per_sqm ∧ x.area_sqm = n.area_sqm ∧
  x.bedrooms = n.bedrooms ∧ x.bathrooms = n.bathrooms ∧
  x.property_type = n.property_type ∧ x.listing_type = n.listing_type ∧
  x.address = n.address ∧ x.coordinates = n.coordinates ∧ x.area_id = n.area_id ∧
  x.site_domain = n.site_domain ∧ x.updated_at = n.updated_at ∧
  x.is_active = n.is_active ∧ x.yearly_yield = n.yearly_yield ∧
  x.monthly_rent = n.monthly_rent

/-- A NormalizedRecord (§3 of the spec): a scraped record after price,
currency and area normalization, input of the Deduplicator and the
Validator. -/
structure NormalizedRecord where
  url : Option String := none
  title : Option String := none
  address : Option String := none
  price : Option ℚ := none
  currency : Option String := none
  area_sqm : Option ℚ := none
  bedrooms : Option ℤ := none
  bathrooms : Option ℚ := none
  kind : Option String := none
  scraped_at : ℕ := 0
deriving DecidableEq, Repr

/-- The Validator's outcome: pass, or fail with a machine-readable
reason. -/
inductive ValidationDecision where
  | pass
  | fail (reason : String)
deriving DecidableEq, Repr

/-- Modelled from the spec: the Validator (`etl/schema.py` is not under
`src/`): "given a NormalizedRecord, decide pass/fail against structural
rules (required fields present: url, price, currency) and business
rules (price > 0; area > 0 when present; bedrooms/bathrooms within a
sane bound, e.g. 0-50; listing kind in sale, rent).  On failure, attach
a machine-readable reason."  The 0-50 bound matches `CreateListingDto`
(`@Min(0) @Max(50)` on bedrooms and bathrooms,
`src/apps/backend/src/listings/dto/listing.dto.ts`) and the kind set
matches the D1 schema `CHECK (kind IN ('sale','rent'))`. -/
def validateRecord (r : NormalizedRecord) : ValidationDecision :=
  if r.url.isNone then .fail "missing_url"
  else if r.price.isNone then .fail "missing_price"
  else if r.currency.isNone then .fail "missing_currency"
  else if !ratPos r.price then .fail "price_not_positive"
  else if (match r.area_sqm with | some a => decide (a ≤ 0) | none => false) then
    .fail "area_not_positive"
  else if (match r.bedrooms with | some b => decide (b < 0 ∨ 50 < b) | none => false) then
    .fail "bedrooms_out_of_range"
  else if (match r.bathrooms with | some b => decide (b < 0 ∨ 50 < b) | none => false) then
    .fail "bathrooms_out_of_range"
  else if !(decide (r.kind = some "sale") || decide (r.kind = some "rent")) then
    .fail "invalid_kind"
  else .pass

/-- Modelled from the spec: price parsing of the Normalizer
(`etl/normalize.py` is not under `src/`): "strips currency
symbols/thousand separators from free-text price strings (e.g.
$450,000 to 450000)".  The cleaned text keeps the digits and the
decimal point. -/
def cleanPriceString (s : String) : String :=
  String.mk (s.data.filter (fun c => c.isDigit || c == '.'))

/-- Modelled from the spec: currency normalization of the Normalizer
(`etl/normalize.py` is not under `src/`): "maps symbols/locale
abbreviations to ISO-style 3-letter codes; unrecognized input defaults
to a configured fallback currency" — the configured default currency
of the store is CAD (`listings.currency DEFAULT 'CAD'` in
`src/database/schema.sql`). -/
def normalizeCurrency (s : String) : String :=
  if s = "$" || s = "US$" || s = "USD" then "USD"
  else if s = "C$" || s = "CA$" || s = "CAD" then "CAD"
  else if s = "€" || s = "EUR" then "EUR"
  else if s = "£" || s = "GBP" then "GBP"
  else "CAD"

/-- Modelled from the spec: area/unit conversion of the Normalizer
(`etl/normalize.py` is not under `src/`): "converts any supported unit
(square feet, square meters, textual 900 sq ft) into square meters
using fixed conversion factors; unit-less numeric input is assumed to
already be square meters."  One square foot is 0.09290304 m². -/
def normalizeAreaQuantity (q : ℚ × String) : ℚ × String :=
  if q.2 = "sqft" || q.2 = "sq ft" || q.2 = "ft2" then
    (q.1 * (9290304 / 100000000), "sqm")
  else (q.1, "sqm")

/-- Modelled from the spec: the identity key (§3): "a deterministic,
stable hash over (normalized title, normalized address or URL, rounded
price)".  The hash is modelled by the hashed tuple itself — a stable
hash is a deterministic function of it. -/
def identityKey (r : NormalizedRecord) : String × String × ℤ :=
  (r.title.getD "", r.address.getD (r.url.getD ""), round (r.price.getD 0))

/-- How many fields of a NormalizedRecord are non-null, the
Deduplicator's completeness measure. -/
def nonNullFieldCount (r : NormalizedRecord) : ℕ :=
  [r.url.isSome, r.title.isSome, r.address.isSome, r.price.isSome,
    r.currency.isSome, r.area_sqm.isSome, r.bedrooms.isSome,
    r.bathrooms.isSome, r.kind.isSome].count true

/-- Modelled from the spec: the Deduplicator's tie-break between two
records sharing an identity key: "prefer the record with more non-null
fields; on equal completeness, prefer the most recently scraped." -/
def preferRecord (a b : NormalizedRecord) : NormalizedRecord :=
  if nonNullFieldCount a < nonNullFieldCount b then b
  else if nonNullFieldCount b < nonNullFieldCount a then a
  else if a.scraped_at ≤ b.scraped_at then b
  else a

/-- One step of the Deduplicator: fold the next input record into the
accumulated output, collapsing it into an existing record when the
identity key is already present. -/
def dedupeStep (acc : List NormalizedRecord) (r : NormalizedRecord) :
    List NormalizedRecord :=
  if acc.any (fun a => decide (identityKey a = identityKey r)) then
    acc.map (fun a => if identityKey a = identityKey r then preferRecord a r else a)
  else acc ++ [r]

/-- Modelled from the spec: the Deduplicator (`etl/dedupe.py` is not
under `src/`): "given a sequence of NormalizedRecord, return a sequence
with at most one record per identity key", processing records in input
order. -/
def deduplicate (l : List NormalizedRecord) : List NormalizedRecord :=
  l.foldl dedupeStep []

/-- One row of the SQL result of the read query shared by
`ListingService.findAll` (`src/apps/backend/src/listings/listing.service.ts`)
and the Express `/listings` route: the projected columns, with
`scraped_at` aliased to `created_at` and latitude/longitude extracted
from `coordinates` (NULL when coordinates are NULL). -/
structure DbListingRow where
  id : String := ""
  title : Option String := none
  price : Option ℚ := none
  property_type : Option String := none
  address : Option String := none
  area_sqm : Option ℚ := none
  bedrooms : Option ℚ := none
  bathrooms : Option ℚ := none
  latitude : Option ℚ := none
  longitude : Option ℚ := none
  url : Option String := none
  created_at : ℕ := 0
  updated_at : ℕ := 0
deriving DecidableEq, Repr

/-- JavaScript `x || d` on a nullable string: `null` and the empty
string are falsy. -/
def jsStrOr (x : Option String) (d : String) : String :=
  match x with
  | some s => if s = "" then d else s
  | none => d

/-- JavaScript `Number(x) || d` on a nullable numeric: `null` and `0`
are falsy. -/
def jsNumOr (x : Option ℚ) (d : ℚ) : ℚ :=
  match x with
  | some v => if v = 0 then d else v
  | none => d

/-- JavaScript `x ? Number(x) : undefined` on a nullable numeric:
`null` and `0` are falsy, so both become `undefined`. -/
def jsNumOpt (x : Option ℚ) : Option ℚ :=
  match x with
  | some v => if v = 0 then none else some v
  | none => none

/-- The `ListingWithCoordinates` interface of
`src/apps/backend/src/listings/listing.service.ts`. -/
structure ListingWithCoordinates where
  id : String
  title : String
  price : ℚ
  property_type : String
  address : String
  area_sqm : Option ℚ := none
  bedrooms : Option ℚ := none
  bathrooms : Option ℚ := none
  latitude : Option ℚ := none
  longitude : Option ℚ := none
  url : String
  created_at : ℕ
  updated_at : ℕ
deriving DecidableEq, Repr

/-- The row-to-listing mapping of `ListingService.findAll`
(`src/apps/backend/src/listings/listing.service.ts`):

    title: listing.title || 'Sans titre',
    price: Number(listing.price) || 0,
    property_type: listing.property_type || 'apartment',
    address: listing.address || 'Adresse non disponible',
    area_sqm: listing.area_sqm ? Number(listing.area_sqm) : undefined, ...
    url: listing.url || '' -/
def mapServiceRow (row : DbListingRow) : ListingWithCoordinates :=
  { id := row.id
    title := jsStrOr row.title "Sans titre"
    price := jsNumOr row.price 0
    property_type := jsStrOr row.property_type "apartment"
    address := jsStrOr row.address "Adresse non disponible"
    area_sqm := jsNumOpt row.area_sqm
    bedrooms := jsNumOpt row.bedrooms
    bathrooms := jsNumOpt row.bathrooms
    latitude := jsNumOpt row.latitude
    longitude := jsNumOpt row.longitude
    url := jsStrOr row.url ""
    created_at := row.created_at
    updated_at := row.updated_at }

/-- The shape of the value returned by `ListingService.findAll`:
`{ listings, total }`.  There is no error variant — the method always
resolves with this shape. -/
structure FindAllResponse where
  listings : List ListingWithCoordinates
  total : ℕ
deriving DecidableEq, Repr

/-- The five hard-coded mock listings of the `catch` branch of
`ListingService.findAll` (`created_at`/`updated_at` are `new Date()`,
the time of the call). -/
def serviceMockListings (now : ℕ) : List ListingWithCoordinates :=
  [{ id := "1", title := "Superbe condo 2BR dans Ville-Marie", price := 450000,
     property_type := "Condo", address := "1234 Rue Saint-Denis, Ville-Marie, QC",
     area_sqm := some 85, bedrooms := some 2, bathrooms := some 1,
     latitude := some 45.5088, longitude := some (-73.5878),
     url := "https://example.com/listing/1", created_at := now, updated_at := now },
   { id := "2", title := "Appartement 3BR Plateau-Mont-Royal", price := 525000,
     property_type := "Apartment",
     address := "5678 Boulevard Saint-Laurent, Le Plateau-Mont-Royal, QC",
     area_sqm := some 120, bedrooms := some 3, bathrooms := some 2,
     latitude := some 45.5276, longitude := some (-73.5825),
     url := "https://example.com/listing/2", created_at := now, updated_at := now },
   { id := "3", title := "Maison 4BR Outremont", price := 850000,
     property_type := "House", address := "9876 Avenue du Parc, Outremont, QC",
     area_sqm := some 200, bedrooms := some 4, bathrooms := some 3,
     latitude := some 45.5234, longitude := some (-73.6078),
     url := "https://example.com/listing/3", created_at := now, updated_at := now },
   { id := "4", title := "Loft 1BR Griffintown", price := 320000,
     property_type := "Condo", address := "1111 Rue Notre-Dame, Le Sud-Ouest, QC",
     area_sqm := some 60, bedrooms := some 1, bathrooms := some 1,
     latitude := some 45.4942, longitude := some (-73.5597),
     url := "https://example.com/listing/4", created_at := now, updated_at := now },
   { id := "5", title := "Townhouse 3BR Verdun", price := 475000,
     property_type := "Townhouse", address := "2222 Rue Wellington, Verdun, QC",
     area_sqm := some 140, bedrooms := some 3, bathrooms := some 2,
     latitude := some 45.4533, longitude := some (-73.5673),
     url := "https://example.com/listing/5", created_at := now, updated_at := now }]

/-- `ListingService.findAll`
(`src/apps/backend/src/listings/listing.service.ts`): on a successful
query, map the rows; on any database error, fall back to the five mock
listings.  The database outcome is the `db` argument; `now` is the
call time. -/
def listingServiceFindAll (now : ℕ) (db : Except String (List DbListingRow)) :
    FindAllResponse :=
  match db with
  | .ok rows =>
    { listings := rows.map mapServiceRow, total := (rows.map mapServiceRow).length }
  | .error _ =>
    { listings := serviceMockListings now, total := (serviceMockListings now).length }

/-- One listing of the Express `/listings` route's response shape. -/
structure ExpressListing where
  id : String
  title : String
  description : String
  price : ℚ
  location : String
  property_type : String
  rooms : ℚ
  surface : Option ℚ := none
  latitude : Option ℚ := none
  longitude : Option ℚ := none
  url : String
  created_at : ℕ
  updated_at : ℕ
deriving DecidableEq, Repr

/-- The row mapping of the Express `/listings` route:

    title: listing.title || 'Sans titre',
    description: listing.title || 'Description non disponible',
    price: Number(listing.price) || 0,
    location: listing.address || 'Adresse non disponible',
    property_type: listing.property_type || 'appartement',
    rooms: listing.bedrooms || 1,
    surface: listing.area_sqm ? Number(listing.area_sqm) : null, ... -/
def mapExpressRow (row : DbListingRow) : ExpressListing :=
  { id := row.id
    title := jsStrOr row.title "Sans titre"
    description := jsStrOr row.title "Description non disponible"
    price := jsNumOr row.price 0
    location := jsStrOr row.address "Adresse non disponible"
    property_type := jsStrOr row.property_type "appartement"
    rooms := jsNumOr row.bedrooms 1
    surface := jsNumOpt row.area_sqm
    latitude := jsNumOpt row.latitude
    longitude := jsNumOpt row.longitude
    url := jsStrOr row.url ""
    created_at := row.created_at
    updated_at := row.updated_at }

/-- The `{ listings, total }` JSON body sent by the Express `/listings`
route; both branches send it with `res.json` (status 200). -/
structure ExpressResponse where
  listings : List ExpressListing
  total : ℕ
deriving DecidableEq, Repr

/-- The five hard-coded fallback listings of the Express `/listings`
route's `catch` branch. -/
def expressMockListings (now : ℕ) : List ExpressListing :=
  [{ id := "1", title := "Superbe condo 2BR dans Ville-Marie",
     description := "Magnifique condo avec vue sur le fleuve", price := 450000,
     location := "1234 Rue Saint-Denis, Ville-Marie, QC", property_type := "condo",
     rooms := 2, surface := some 85, latitude := some 45.5088,
     longitude := some (-73.5878), url := "https://example.com/listing/1",
     created_at := now, updated_at := now },
   { id := "2", title := "Appartement 3BR Plateau-Mont-Royal",
     description := "Charmant appartement dans le Plateau", price := 525000,
     location := "5678 Boulevard Saint-Laurent, Le Plateau-Mont-Royal, QC",
     property_type := "appartement", rooms := 3, surface := some 120,
     latitude := some 45.5276, longitude := some (-73.5825),
     url := "https://example.com/listing/2", created_at := now, updated_at := now },
   { id := "3", title := "Maison 4BR Outremont",
     description := "Belle maison familiale à Outremont", price := 850000,
     location := "9876 Avenue du Parc, Outremont, QC", property_type := "maison",
     rooms := 4, surface := some 200, latitude := some 45.5234,
     longitude := some (-73.6078), url := "https://example.com/listing/3",
     created_at := now, updated_at := now },
   { id := "4", title := "Loft 1BR Griffintown",
     description := "Loft moderne dans Griffintown", price := 320000,
     location := "1111 Rue Notre-Dame, Le Sud-Ouest, QC", property_type := "loft",
     rooms := 1, surface := some 60, latitude := some 45.4942,
     longitude := some (-73.5597), url := "https://example.com/listing/4",
     created_at := now, updated_at := now },
   { id := "5", title := "Townhouse 3BR Verdun",
     description := "Maison de ville à Verdun", price := 475000,
     location := "2222 Rue Wellington, Verdun, QC", property_type := "maison",
     rooms := 3, surface := some 140, latitude := some 45.4533,
     longitude := some (-73.5673), url := "https://example.com/listing/5",
     created_at := now, updated_at := now }]

/-- The Express `app.get('/listings')` handler: on a successful query,
map and send the rows; on any database error, send the five mock
listings — in both cases through `res.json` with the same
`{ listings, total }` shape. -/
def expressGetListings (now : ℕ) (db : Except String (List DbListingRow)) :
    ExpressResponse :=
  match db with
  | .ok rows =>
    { listings := rows.map mapExpressRow, total := (rows.map mapExpressRow).length }
  | .error _ =>
    { listings := expressMockListings now, total := (expressMockListings now).length }

theorem list_find_eq_filter_head {α : Type} (p : α → Bool) (l : List α) :
    l.find? p = (l.filter p).head? := by
  induction l with
  | nil => rfl
  | cons a t ih =>
    cases h : p a
    · rw [List.find?_cons_of_neg _ (by simp [h]), List.filter_cons_of_neg (by simp [h]), ih]
    · rw [List.find?_cons_of_pos _ h, List.filter_cons_of_pos h, List.head?_cons]

theorem list_find_eq_of_perm_of_subsingleton {α : Type} (p : α → Bool)
    (s1 s2 : List α) (hperm : s1.Perm s2) (hcount : s1.countP p ≤ 1) :
    s1.find? p = s2.find? p := by
  have hf : (s1.filter p).Perm (s2.filter p) := hperm.filter p
  rw [list_find_eq_filter_head, list_find_eq_filter_head]
  have hlen : (s1.filter p).length ≤ 1 := by
    rw [← List.countP_eq_length_filter]; exact hcount
  cases hfp : s1.filter p with
  | nil =>
    rw [hfp] at hf
    rw [hf.nil_eq]
  | cons a t =>
    rw [hfp] at hf hlen
    have ht : t = [] := by simpa using hlen
    subst ht
    rw [List.perm_singleton.mp hf.symm]

/-- Claim C9: on a write whose incoming row already carries a non-NULL
`price_per_sqm`, the trigger leaves `price_per_sqm` unchanged — even
when the incoming `price` or `area_sqm` would give a different ratio —
because the recomputation is guarded by `NEW.price_per_sqm IS NULL`. -/
theorem C9_price_per_sqm_not_recomputed {G : Type} (within : Point → G → Bool)
    (areas : List (AreaRow G)) (now : ℕ) (new : ListingRow) (v : ℚ)
    (h : new.price_per_sqm = some v) :
    (trigger_update_listing_area within areas now new).price_per_sqm = some v := by
  cases hc : new.coordinates <;> cases ha : new.area_id <;>
    simp [trigger_update_listing_area, hc, ha, h] <;> split <;> simp [h]

/-- Witness for C9 at a concrete row: stored `price_per_sqm` 123 is
kept although price 100 over area 10 would give 10. -/
theorem C9_price_per_sqm_not_recomputed_witness :
    (trigger_update_listing_area (G := Unit) (fun _ _ => false) [] 7
      { url_hash := "w9", url := "u", price := some 100, area_sqm := some 10,
        price_per_sqm := some 123 }).price_per_sqm = some 123 :=
  C9_price_per_sqm_not_recomputed (fun _ _ => false) [] 7 _ 123 rfl

/-- Claim C2, counterexample: the claim says the stored price-per-area
equals price divided by area on every insert or update where both are
strictly positive, but a row arriving with `price_per_sqm` already
non-NULL keeps that stale value: with price 100 and area 10 (both
positive) the stored `price_per_sqm` stays 999, not 100/10. -/
theorem C2_counterexample :
    0 < (100 : ℚ) ∧ 0 < (10 : ℚ) ∧
    (trigger_update_listing_area (G := Unit) (fun _ _ => false) [] 7
      { url_hash := "c2", url := "u", price := some 100, area_sqm := some 10,
        price_per_sqm := some 999 }).price_per_sqm = some 999 ∧
    (trigger_update_listing_area (G := Unit) (fun _ _ => false) [] 7
      { url_hash := "c2", url := "u", price := some 100, area_sqm := some 10,
        price_per_sqm := some 999 }).price_per_sqm ≠ some ((100 : ℚ) / 10) := by
  refine ⟨by norm_num, by norm_num, by decide, ?_⟩
  have h : (trigger_update_listing_area (G := Unit) (fun _ _ => false) [] 7
      { url_hash := "c2", url := "u", price := some 100, area_sqm := some 10,
        price_per_sqm := some 999 }).price_per_sqm = some 999 := by decide
  rw [h]
  intro hcontra
  have : (999 : ℚ) = 100 / 10 := by exact Option.some.inj hcontra
  norm_num at this

/-- Claim C2, amended: on every insert or update whose incoming
`price_per_sqm` is NULL, the stored price-per-area equals price divided
by area and is computed exactly when both price and area are strictly
positive (it stays NULL otherwise). -/
theorem C2_price_per_sqm_formula {G : Type} (within : Point → G → Bool)
    (areas : List (AreaRow G)) (now : ℕ) (new : ListingRow)
    (hnull : new.price_per_sqm = none) :
    (∀ p a, new.price = some p → new.area_sqm = some a → 0 < p → 0 < a →
      (trigger_update_listing_area within areas now new).price_per_sqm = some (p / a)) ∧
    ((ratPos new.price && ratPos new.area_sqm) = false →
      (trigger_update_listing_area within areas now new).price_per_sqm = none) := by
  constructor
  · intro p a hp ha hpp hpa
    cases hc : new.coordinates <;> cases hai : new.area_id <;>
      simp [trigger_update_listing_area, hc, hai, hnull, hp, ha, ratPos, ratDiv, hpp, hpa] <;>
      split <;> simp
  · intro hguard
    cases hc : new.coordinates <;> cases hai : new.area_id <;>
      simp [trigger_update_listing_area, hc, hai, hnull, hguard] <;>
      split <;> simp [hnull]

/-- Witness for the amended C2 at the spec's concrete example: price
450000 over area 90 stores 5000. -/
theorem C2_price_per_sqm_formula_witness :
    (trigger_update_listing_area (G := Unit) (fun _ _ => false) [] 7
      { url_hash := "w2", url := "u", price := some 450000,
        area_sqm := some 90 }).price_per_sqm = some ((450000 : ℚ) / 90) ∧
    (450000 : ℚ) / 90 = 5000 :=
  ⟨(C2_price_per_sqm_formula (G := Unit) (fun _ _ => false) [] 7
      { url_hash := "w2", url := "u", price := some 450000, area_sqm := some 90 }
      rfl).1 450000 90 rfl rfl (by norm_num) (by norm_num),
   by norm_num⟩

/-- Claim C3: for every rental listing written with a positive monthly
rent and a positive price, the trigger stores the annualized yield
`(monthly_rent * 12 / price) * 100`. -/
theorem C3_yearly_yield_formula {G : Type} (within : Point → G → Bool)
    (areas : List (AreaRow G)) (now : ℕ) (new : ListingRow) (m p : ℚ)
    (hrent : new.listing_type = some "rent") (hm : new.monthly_rent = some m)
    (hp : new.price = some p) (hmpos : 0 < m) (hppos : 0 < p) :
    (trigger_update_listing_area within areas now new).yearly_yield
      = some (m * 12 / p * 100) := by
  cases hc : new.coordinates <;> cases hai : new.area_id <;>
    simp [trigger_update_listing_area, hc, hai, hrent, hm, hp, ratPos, ratDiv, ratMulC,
      hmpos, hppos] <;> split <;> simp [hrent, hm, hp, ratMulC, ratDiv, hmpos, hppos]

/-- Witness for C3 at the spec's concrete example: monthly rent 1500 on
price 300000 stores a yearly yield of 6. -/
theorem C3_yearly_yield_formula_witness :
    (trigger_update_listing_area (G := Unit) (fun _ _ => false) [] 7
      { url_hash := "w3", url := "u", listing_type := some "rent",
        monthly_rent := some 1500, price := some 300000 }).yearly_yield
      = some ((1500 : ℚ) * 12 / 300000 * 100) ∧
    (1500 : ℚ) * 12 / 300000 * 100 = 6 :=
  ⟨C3_yearly_yield_formula (G := Unit) (fun _ _ => false) [] 7
      { url_hash := "w3", url := "u", listing_type := some "rent",
        monthly_rent := some 1500, price := some 300000 }
      1500 300000 rfl rfl rfl (by norm_num) (by norm_num),
   by norm_num⟩

/-- Claim C4: on a write with coordinates present and no area already
assigned, a point inside exactly one Area polygon gets that polygon's
id, and a point inside zero polygons leaves `area_id` NULL — the
trigger still returns a row, not an error. -/
theorem C4_area_assignment {G : Type} (within : Point → G → Bool)
    (areas : List (AreaRow G)) (now : ℕ) (new : ListingRow) (pt : Point)
    (hc : new.coordinates = some pt) (ha : new.area_id = none) :
    (areas.filter (fun a => within pt a.geometry) = [] →
        (trigger_update_listing_area within areas now new).area_id = none) ∧
    (∀ ar, areas.filter (fun a => within pt a.geometry) = [ar] →
        (trigger_update_listing_area within areas now new).area_id = some ar.id) := by
  constructor
  · intro hnone
    simp only [trigger_update_listing_area, hc, ha]
    repeat' split
    all_goals simp [detect_area_from_coordinates, list_find_eq_filter_head, hnone]
  · intro ar hone
    simp only [trigger_update_listing_area, hc, ha]
    repeat' split
    all_goals simp [detect_area_from_coordinates, list_find_eq_filter_head, hone]

/-- Witness for C4: the point (5,5) lies only in the first of two
disjoint rectangles and is assigned area 1; the point (50,50) lies in
neither rectangle and the listing's area stays unassigned. -/
theorem C4_area_assignment_witness :
    (trigger_update_listing_area rectContains
      [⟨1, "A", "Montreal", ⟨0, 10, 0, 10⟩⟩, ⟨2, "B", "Montreal", ⟨20, 30, 20, 30⟩⟩] 7
      { url_hash := "w4", url := "u", coordinates := some ⟨5, 5⟩ }).area_id = some 1 ∧
    (trigger_update_listing_area rectContains
      [⟨1, "A", "Montreal", ⟨0, 10, 0, 10⟩⟩, ⟨2, "B", "Montreal", ⟨20, 30, 20, 30⟩⟩] 7
      { url_hash := "w4", url := "u", coordinates := some ⟨50, 50⟩ }).area_id = none :=
  ⟨(C4_area_assignment rectContains
      [⟨1, "A", "Montreal", ⟨0, 10, 0, 10⟩⟩, ⟨2, "B", "Montreal", ⟨20, 30, 20, 30⟩⟩] 7
      { url_hash := "w4", url := "u", coordinates := some ⟨5, 5⟩ } ⟨5, 5⟩ rfl rfl).2
      ⟨1, "A", "Montreal", ⟨0, 10, 0, 10⟩⟩ (by decide),
   (C4_area_assignment rectContains
      [⟨1, "A", "Montreal", ⟨0, 10, 0, 10⟩⟩, ⟨2, "B", "Montreal", ⟨20, 30, 20, 30⟩⟩] 7
      { url_hash := "w4", url := "u", coordinates := some ⟨50, 50⟩ } ⟨50, 50⟩ rfl rfl).1
      (by decide)⟩

/-- Claim C5, counterexample: the claim promises a deterministic
assignment with ties broken by polygon insertion order, but the SQL
query `SELECT ... WHERE ST_Within(...) LIMIT 1` has no ORDER BY: two
legal scan orders of the same stored table — one the insertion order,
one its permutation — assign different areas to a point inside both
polygons. -/
theorem C5_counterexample :
    ([⟨1, "A", "Montreal", ⟨0, 10, 0, 10⟩⟩, ⟨2, "B", "Montreal", ⟨0, 10, 0, 10⟩⟩]
        : List (AreaRow Rect)).Perm
      [⟨2, "B", "Montreal", ⟨0, 10, 0, 10⟩⟩, ⟨1, "A", "Montreal", ⟨0, 10, 0, 10⟩⟩] ∧
    detect_area_from_coordinates rectContains
      [⟨1, "A", "Montreal", ⟨0, 10, 0, 10⟩⟩, ⟨2, "B", "Montreal", ⟨0, 10, 0, 10⟩⟩]
      5 5 = some 1 ∧
    detect_area_from_coordinates rectContains
      [⟨2, "B", "Montreal", ⟨0, 10, 0, 10⟩⟩, ⟨1, "A", "Montreal", ⟨0, 10, 0, 10⟩⟩]
      5 5 = some 2 :=
  ⟨List.Perm.swap _ _ _, by decide, by decide⟩

/-- Claim C5, amended: `detect_area_from_coordinates` picks the first
matching polygon of the scan order the database happens to use, which
SQL does not fix; the choice is independent of the scan order only when
at most one polygon contains the point. -/
theorem C5_detect_scan_order {G : Type} (within : Point → G → Bool)
    (s1 s2 : List (AreaRow G)) (lat lon : ℚ) (hperm : s1.Perm s2)
    (hcount : s1.countP (fun a => within ⟨lon, lat⟩ a.geometry) ≤ 1) :
    detect_area_from_coordinates within s1 lat lon
      = detect_area_from_coordinates within s2 lat lon := by
  unfold detect_area_from_coordinates
  rw [list_find_eq_of_perm_of_subsingleton _ s1 s2 hperm hcount]

/-- Witness for the amended C5: with two disjoint rectangles the
detected area is the same under both scan orders. -/
theorem C5_detect_scan_order_witness :
    ([⟨1, "A", "Montreal", ⟨0, 10, 0, 10⟩⟩, ⟨2, "B", "Montreal", ⟨20, 30, 20, 30⟩⟩]
        : List (AreaRow Rect)).countP
      (fun a => rectContains ⟨5, 5⟩ a.geometry) ≤ 1 ∧
    detect_area_from_coordinates rectContains
      [⟨1, "A", "Montreal", ⟨0, 10, 0, 10⟩⟩, ⟨2, "B", "Montreal", ⟨20, 30, 20, 30⟩⟩]
      5 5 =
    detect_area_from_coordinates rectContains
      [⟨2, "B", "Montreal", ⟨20, 30, 20, 30⟩⟩, ⟨1, "A", "Montreal", ⟨0, 10, 0, 10⟩⟩]
      5 5 :=
  ⟨by decide,
   C5_detect_scan_order rectContains
     [⟨1, "A", "Montreal", ⟨0, 10, 0, 10⟩⟩, ⟨2, "B", "Montreal", ⟨20, 30, 20, 30⟩⟩]
     [⟨2, "B", "Montreal", ⟨20, 30, 20, 30⟩⟩, ⟨1, "A", "Montreal", ⟨0, 10, 0, 10⟩⟩]
     5 5 (List.Perm.swap _ _ _) (by decide)⟩

/-- Claim C10: when the database query fails, `ListingService.findAll`
and the Express `/listings` route do not return an error: both respond
with the ordinary success shape holding a fixed, hard-coded list of
five mock listings (independent of the error); and for the service
there is a database state whose successful read produces the identical
response, so the caller cannot tell the outage apart from reading that
data. -/
theorem C10_error_fallback_mock_listings (e : String) (now : ℕ) :
    listingServiceFindAll now (.error e)
      = { listings := serviceMockListings now, total := 5 } ∧
    expressGetListings now (.error e)
      = { listings := expressMockListings now, total := 5 } ∧
    ∃ rows, listingServiceFindAll now (.ok rows)
      = listingServiceFindAll now (.error e) := by
  refine ⟨rfl, rfl, ?_⟩
  refine ⟨[
    { id := "1", title := some "Superbe condo 2BR dans Ville-Marie",
      price := some 450000, property_type := some "Condo",
      address := some "1234 Rue Saint-Denis, Ville-Marie, QC",
      area_sqm := some 85, bedrooms := some 2, bathrooms := some 1,
      latitude := some 45.5088, longitude := some (-73.5878),
      url := some "https://example.com/listing/1", created_at := now, updated_at := now },
    { id := "2", title := some "Appartement 3BR Plateau-Mont-Royal",
      price := some 525000, property_type := some "Apartment",
      address := some "5678 Boulevard Saint-Laurent, Le Plateau-Mont-Royal, QC",
      area_sqm := some 120, bedrooms := some 3, bathrooms := some 2,
      latitude := some 45.5276, longitude := some (-73.5825),
      url := some "https://example.com/listing/2", created_at := now, updated_at := now },
    { id := "3", title := some "Maison 4BR Outremont",
      price := some 850000, property_type := some "House",
      address := some "9876 Avenue du Parc, Outremont, QC",
      area_sqm := some 200, bedrooms := some 4, bathrooms := some 3,
      latitude := some 45.5234, longitude := some (-73.6078),
      url := some "https://example.com/listing/3", created_at := now, updated_at := now },
    { id := "4", title := some "Loft 1BR Griffintown",
      price := some 320000, property_type := some "Condo",
      address := some "1111 Rue Notre-Dame, Le Sud-Ouest, QC",
      area_sqm := some 60, bedrooms := some 1, bathrooms := some 1,
      latitude := some 45.4942, longitude := some (-73.5597),
      url := some "https://example.com/listing/4", created_at := now, updated_at := now },
    { id := "5", title := some "Townhouse 3BR Verdun",
      price := some 475000, property_type := some "Townhouse",
      address := some "2222 Rue Wellington, Verdun, QC",
      area_sqm := some 140, bedrooms := some 3, bathrooms := some 2,
      latitude := some 45.4533, longitude := some (-73.5673),
      url := some "https://example.com/listing/5", created_at := now, updated_at := now }], ?_⟩
  simp [listingServiceFindAll, mapServiceRow, serviceMockListings, jsStrOr, jsNumOr, jsNumOpt]
  norm_num

/-- Claim C7: the three normalization functions are idempotent — for
every price string, currency string and area quantity, normalizing an
already-normalized value returns the same value. -/
theorem C7_normalization_idempotent (s c : String) (q : ℚ × String) :
    cleanPriceString (cleanPriceString s) = cleanPriceString s ∧
    normalizeCurrency (normalizeCurrency c) = normalizeCurrency c ∧
    normalizeAreaQuantity (normalizeAreaQuantity q) = normalizeAreaQuantity q := by
  refine ⟨?_, ?_, ?_⟩
  · simp [cleanPriceString, List.filter_filter]
  · have h : normalizeCurrency c = "USD" ∨ normalizeCurrency c = "CAD" ∨
        normalizeCurrency c = "EUR" ∨ normalizeCurrency c = "GBP" := by
      unfold normalizeCurrency
      split_ifs <;> simp
    rcases h with h | h | h | h <;> rw [h] <;> decide
  · unfold normalizeAreaQuantity
    split_ifs <;> simp_all

/-- Witness for C7 at the spec's end-to-end inputs: the price string
\x22$450,000\x22, the currency symbol \x22$\x22 and the quantity 900 sq ft. -/
theorem C7_normalization_idempotent_witness :
    cleanPriceString (cleanPriceString "$450,000") = cleanPriceString "$450,000" ∧
    normalizeCurrency (normalizeCurrency "$") = normalizeCurrency "$" ∧
    normalizeAreaQuantity (normalizeAreaQuantity (900, "sq ft"))
      = normalizeAreaQuantity (900, "sq ft") :=
  C7_normalization_idempotent "$450,000" "$" (900, "sq ft")

theorem preferRecord_eq_or (a b : NormalizedRecord) :
    preferRecord a b = a ∨ preferRecord a b = b := by
  unfold preferRecord
  split_ifs <;> simp

theorem dedupeStep_key_pairwise (acc : List NormalizedRecord) (r : NormalizedRecord)
    (h : acc.Pairwise (fun x y => identityKey x ≠ identityKey y)) :
    (dedupeStep acc r).Pairwise (fun x y => identityKey x ≠ identityKey y) := by
  unfold dedupeStep
  split_ifs with hany
  · have key_g : ∀ z, identityKey
        (if identityKey z = identityKey r then preferRecord z r else z)
          = identityKey z := by
      intro z
      split_ifs with hz
      · rcases preferRecord_eq_or z r with he | he
        · rw [he]
        · rw [he, hz]
      · rfl
    exact List.pairwise_map.mpr (h.imp (fun hxy => by rw [key_g, key_g]; exact hxy))
  · rw [List.pairwise_append]
    refine ⟨h, List.pairwise_singleton _ _, ?_⟩
    intro x hx y hy
    simp at hany hy
    subst hy
    exact fun hk => hany x hx hk

theorem dedupe_foldl_key_pairwise (l acc : List NormalizedRecord)
    (h : acc.Pairwise (fun x y => identityKey x ≠ identityKey y)) :
    (l.foldl dedupeStep acc).Pairwise (fun x y => identityKey x ≠ identityKey y) := by
  induction l generalizing acc with
  | nil => exact h
  | cons a t ih => exact ih _ (dedupeStep_key_pairwise _ _ h)

/-- Claim C8: for every input sequence, the Deduplicator's output has
no two records sharing an identity key. -/
theorem C8_dedup_unique_keys (l : List NormalizedRecord) :
    (deduplicate l).Pairwise (fun x y => identityKey x ≠ identityKey y) :=
  dedupe_foldl_key_pairwise l [] List.Pairwise.nil

/-- Witness for C8 on a concrete input containing a duplicate key. -/
theorem C8_dedup_unique_keys_witness :
    (deduplicate [{ url := some "a", price := some 100, scraped_at := 1 },
                  { url := some "a", price := some 100, scraped_at := 2 },
                  { url := some "b", price := some 200, scraped_at := 3 }]).Pairwise
      (fun x y => identityKey x ≠ identityKey y) :=
  C8_dedup_unique_keys [{ url := some "a", price := some 100, scraped_at := 1 },
                        { url := some "a", price := some 100, scraped_at := 2 },
                        { url := some "b", price := some 200, scraped_at := 3 }]

/-- Claim C6: the Validator passes a NormalizedRecord exactly when url,
price and currency are present, the price is positive, the area is
positive when present, bedrooms and bathrooms lie within 0-50 when
present, and the listing kind is sale or rent; and it always returns a
decision (pass, or fail with a reason) — it is a total function. -/
theorem C6_validator_pass_conditions (r : NormalizedRecord) :
    (validateRecord r = .pass ↔
      (r.url.isSome ∧ r.price.isSome ∧ r.currency.isSome ∧
       (∀ p, r.price = some p → 0 < p) ∧
       (∀ a, r.area_sqm = some a → 0 < a) ∧
       (∀ b, r.bedrooms = some b → 0 ≤ b ∧ b ≤ 50) ∧
       (∀ b, r.bathrooms = some b → 0 ≤ b ∧ b ≤ 50) ∧
       (r.kind = some "sale" ∨ r.kind = some "rent"))) ∧
    (validateRecord r = .pass ∨ ∃ m, validateRecord r = .fail m) := by
  constructor
  · unfold validateRecord
    split_ifs with h1 h2 h3 h4 h5 h6 h7 h8
    · refine iff_of_false (by simp) ?_
      rintro ⟨hu, -⟩
      simp [Option.isNone_iff_eq_none.mp h1] at hu
    · refine iff_of_false (by simp) ?_
      rintro ⟨-, hp, -⟩
      simp [Option.isNone_iff_eq_none.mp h2] at hp
    · refine iff_of_false (by simp) ?_
      rintro ⟨-, -, hc, -⟩
      simp [Option.isNone_iff_eq_none.mp h3] at hc
    · refine iff_of_false (by simp) ?_
      rintro ⟨-, hp, -, hpos, -⟩
      obtain ⟨p, hep⟩ := Option.isSome_iff_exists.mp hp
      simp [ratPos, hep] at h4
      exact absurd (hpos p hep) (not_lt.mpr h4)
    · refine iff_of_false (by simp) ?_
      rintro ⟨-, -, -, -, harea, -⟩
      rcases ha : r.area_sqm with _ | a
      · simp [ha] at h5
      · simp [ha] at h5
        exact absurd (harea a ha) (not_lt.mpr h5)
    · refine iff_of_false (by simp) ?_
      rintro ⟨-, -, -, -, -, hbed, -⟩
      rcases hb : r.bedrooms with _ | b
      · simp [hb] at h6
      · simp [hb] at h6
        have := hbed b hb
        omega
    · refine iff_of_false (by simp) ?_
      rintro ⟨-, -, -, -, -, -, hbath, -⟩
      rcases hb : r.bathrooms with _ | b
      · simp [hb] at h7
      · simp [hb] at h7
        obtain ⟨hb0, hb50⟩ := hbath b hb
        rcases h7 with h | h
        · exact absurd hb0 (not_le.mpr h)
        · exact absurd hb50 (not_le.mpr h)
    · refine iff_of_false (by simp) ?_
      rintro ⟨-, -, -, -, -, -, -, hkind⟩
      simp at h8
      rcases hkind with h | h <;> simp [h] at h8
    · refine iff_of_true rfl ?_
      simp [Option.isNone_iff_eq_none] at h1 h2 h3
      refine ⟨Option.isSome_iff_ne_none.mpr h1, Option.isSome_iff_ne_none.mpr h2,
        Option.isSome_iff_ne_none.mpr h3, ?_, ?_, ?_, ?_, ?_⟩
      · intro p hp
        simp [ratPos, hp] at h4
        exact h4
      · intro a ha
        simp [ha] at h5
        exact h5
      · intro b hb
        simp [hb] at h6
        omega
      · intro b hb
        simp [hb] at h7
        exact h7
      · simp at h8
        exact or_iff_not_imp_left.mpr h8
  · unfold validateRecord
    split_ifs <;> simp

/-- Witness for C6 at a concrete passing record. -/
theorem C6_validator_pass_conditions_witness :
    (validateRecord
        { url := some "https://x/1", price := some 450000,
          currency := some "USD", area_sqm := some 90, bedrooms := some 2,
          bathrooms := some 1, kind := some "sale" } = .pass ↔
      ((some "https://x/1" : Option String).isSome ∧
       (some (450000 : ℚ) : Option ℚ).isSome ∧
       (some "USD" : Option String).isSome ∧
       (∀ p, (some (450000 : ℚ) : Option ℚ) = some p → 0 < p) ∧
       (∀ a, (some (90 : ℚ) : Option ℚ) = some a → 0 < a) ∧
       (∀ b, (some (2 : ℤ) : Option ℤ) = some b → 0 ≤ b ∧ b ≤ 50) ∧
       (∀ b, (some (1 : ℚ) : Option ℚ) = some b → 0 ≤ b ∧ b ≤ 50) ∧
       ((some "sale" : Option String) = some "sale" ∨
        (some "sale" : Option String) = some "rent"))) ∧
    (validateRecord
        { url := some "https://x/1", price := some 450000,
          currency := some "USD", area_sqm := some 90, bedrooms := some 2,
          bathrooms := some 1, kind := some "sale" } = .pass ∨
     ∃ m, validateRecord
        { url := some "https://x/1", price := some 450000,
          currency := some "USD", area_sqm := some 90, bedrooms := some 2,
          bathrooms := some 1, kind := some "sale" } = .fail m) :=
  C6_validator_pass_conditions
    { url := some "https://x/1", price := some 450000,
      currency := some "USD", area_sqm := some 90, bedrooms := some 2,
      bathrooms := some 1, kind := some "sale" }

theorem trigger_preserves_url_hash {G : Type} (within : Point → G → Bool)
    (areas : List (AreaRow G)) (now : ℕ) (new : ListingRow) :
    (trigger_update_listing_area within areas now new).url_hash = new.url_hash := by
  cases hc : new.coordinates <;> cases ha : new.area_id <;>
    (simp only [trigger_update_listing_area, hc, ha]; repeat' split) <;> rfl

theorem load_keys_update {G : Type} (within : Point → G → Bool)
    (areas : List (AreaRow G)) (now : ℕ) (store : List ListingRow) (r : ListingRow)
    (hany : store.any (fun x => decide (x.url_hash = r.url_hash)) = true) :
    (loadValidatedRecord within areas now store r).map (fun x => x.url_hash)
      = store.map (fun x => x.url_hash) := by
  unfold loadValidatedRecord
  simp only [hany, if_true, List.map_map]
  refine List.map_congr_left ?_
  intro x _
  by_cases h : x.url_hash = r.url_hash <;> simp [h, updateMutableFields]

theorem load_keys_insert {G : Type} (within : Point → G → Bool)
    (areas : List (AreaRow G)) (now : ℕ) (store : List ListingRow) (r : ListingRow)
    (hany : store.any (fun x => decide (x.url_hash = r.url_hash)) = false) :
    (loadValidatedRecord within areas now store r).map (fun x => x.url_hash)
      = store.map (fun x => x.url_hash) ++ [r.url_hash] := by
  unfold loadValidatedRecord
  simp [hany, trigger_preserves_url_hash]

theorem load_nodup_keys {G : Type} (within : Point → G → Bool)
    (areas : List (AreaRow G)) (now : ℕ) (store : List ListingRow) (r : ListingRow)
    (h : (store.map (fun x => x.url_hash)).Nodup) :
    ((loadValidatedRecord within areas now store r).map (fun x => x.url_hash)).Nodup := by
  cases hany : store.any (fun x => decide (x.url_hash = r.url_hash))
  · rw [load_keys_insert within areas now store r hany]
    have hnotin : r.url_hash ∉ store.map (fun x => x.url_hash) := by
      simp only [List.any_eq_false, decide_eq_true_eq] at hany
      simp only [List.mem_map, not_exists]
      rintro x ⟨hx, hk⟩
      exact hany x hx hk
    rw [List.nodup_append]
    exact ⟨h, List.nodup_singleton _, by simpa using hnotin⟩
  · rw [load_keys_update within areas now store r hany]
    exact h

theorem load_mem_key {G : Type} (within : Point → G → Bool)
    (areas : List (AreaRow G)) (now : ℕ) (store : List ListingRow) (r : ListingRow) :
    (loadValidatedRecord within areas now store r).any
      (fun x => decide (x.url_hash = r.url_hash)) = true := by
  have hmem : r.url_hash ∈ (loadValidatedRecord within areas now store r).map
      (fun x => x.url_hash) := by
    cases hany : store.any (fun x => decide (x.url_hash = r.url_hash))
    · rw [load_keys_insert within areas now store r hany]
      simp
    · rw [load_keys_update within areas now store r hany]
      simp only [List.any_eq_true, decide_eq_true_eq] at hany
      obtain ⟨x, hx, hk⟩ := hany
      exact hk ▸ List.mem_map_of_mem _ hx
  simp only [List.mem_map] at hmem
  obtain ⟨x, hx, hk⟩ := hmem
  simp only [List.any_eq_true, decide_eq_true_eq]
  exact ⟨x, hx, hk⟩

theorem load_load_eq {G : Type} (within : Point → G → Bool)
    (areas : List (AreaRow G)) (now : ℕ) (store : List ListingRow) (r : ListingRow) :
    loadValidatedRecord within areas now
      (loadValidatedRecord within areas now store r) r
      = loadValidatedRecord within areas now store r := by
  have hany1 := load_mem_key within areas now store r
  conv_lhs => rw [loadValidatedRecord]
  simp only [hany1, if_true]
  cases hany : store.any (fun x => decide (x.url_hash = r.url_hash))
  · conv_lhs => rw [loadValidatedRecord]
    conv_rhs => rw [loadValidatedRecord]
    simp only [hany, Bool.false_eq_true, if_false, List.map_append, List.map_cons,
      List.map_nil]
    have h1 : store.map (fun x =>
        if x.url_hash = r.url_hash then
          updateMutableFields x (trigger_update_listing_area within areas now r)
        else x) = store := by
      refine (List.map_congr_left ?_).trans (List.map_id _)
      intro x hx
      have hne : ¬ x.url_hash = r.url_hash := by
        simp only [List.any_eq_false, decide_eq_true_eq] at hany
        exact hany x hx
      simp [hne]
    rw [h1]
    have hk : ({ trigger_update_listing_area within areas now r with
        scraped_at := now } : ListingRow).url_hash = r.url_hash :=
      trigger_preserves_url_hash within areas now r
    rw [if_pos hk]
    simp [updateMutableFields]
  · conv_lhs => rw [loadValidatedRecord]
    conv_rhs => rw [loadValidatedRecord]
    simp only [hany, if_true, List.map_map]
    refine List.map_congr_left ?_
    intro x _
    simp only [Function.comp]
    by_cases h : x.url_hash = r.url_hash <;> simp [h, updateMutableFields]

theorem countP_key_eq_count_map (k : String) (l : List ListingRow) :
    l.countP (fun x => decide (x.url_hash = k))
      = (l.map (fun x => x.url_hash)).count k := by
  induction l with
  | nil => rfl
  | cons a t ih => simp [List.countP_cons, List.count_cons, ih]

theorem load_key_mutable {G : Type} (within : Point → G → Bool)
    (areas : List (AreaRow G)) (now : ℕ) (store : List ListingRow) (r : ListingRow) :
    ∀ x ∈ loadValidatedRecord within areas now store r, x.url_hash = r.url_hash →
      mutableFieldsEq x (trigger_update_listing_area within areas now r) := by
  intro x hx hkey
  cases hany : store.any (fun y => decide (y.url_hash = r.url_hash))
  · unfold loadValidatedRecord at hx
    simp only [hany, Bool.false_eq_true, if_false, List.mem_append,
      List.mem_singleton] at hx
    rcases hx with hx | hx
    · have hne : ¬ x.url_hash = r.url_hash := by
        simp only [List.any_eq_false, decide_eq_true_eq] at hany
        exact hany x hx
      exact absurd hkey hne
    · subst hx
      simp [mutableFieldsEq]
  · unfold loadValidatedRecord at hx
    simp only [hany, if_true, List.mem_map] at hx
    obtain ⟨y, hy, hgy⟩ := hx
    by_cases h : y.url_hash = r.url_hash
    · rw [if_pos h] at hgy
      subst hgy
      simp [mutableFieldsEq, updateMutableFields]
    · rw [if_neg h] at hgy
      subst hgy
      exact absurd hkey h

/-- Claim C1: loading into a store with pairwise-distinct identity keys
keeps the keys pairwise distinct; loading the same ValidatedRecord a
second time leaves the store exactly as one load left it; the store
holds exactly one row for the record's identity key; and every row with
that key has its mutable columns equal to the (trigger-processed)
loaded record's values — the second load updates, it never inserts a
duplicate. -/
theorem C1_upsert_convergence {G : Type} (within : Point → G → Bool)
    (areas : List (AreaRow G)) (now : ℕ) (store : List ListingRow) (r : ListingRow)
    (h : (store.map (fun x => x.url_hash)).Nodup) :
    ((loadValidatedRecord within areas now store r).map (fun x => x.url_hash)).Nodup ∧
    loadValidatedRecord within areas now
      (loadValidatedRecord within areas now store r) r
      = loadValidatedRecord within areas now store r ∧
    (loadValidatedRecord within areas now store r).countP
      (fun x => decide (x.url_hash = r.url_hash)) = 1 ∧
    (∀ x ∈ loadValidatedRecord within areas now store r, x.url_hash = r.url_hash →
      mutableFieldsEq x (trigger_update_listing_area within areas now r)) := by
  refine ⟨load_nodup_keys within areas now store r h, load_load_eq within areas now store r,
    ?_, load_key_mutable within areas now store r⟩
  rw [countP_key_eq_count_map]
  refine List.count_eq_one_of_mem (load_nodup_keys within areas now store r h) ?_
  have := load_mem_key within areas now store r
  simp only [List.any_eq_true, decide_eq_true_eq] at this
  obtain ⟨x, hx, hk⟩ := this
  exact hk ▸ List.mem_map_of_mem _ hx

/-- Witness for C1: loading a concrete record twice into the empty
store is the same as loading it once, and leaves exactly one row for
its key. -/
theorem C1_upsert_convergence_witness :
    loadValidatedRecord (G := Unit) (fun _ _ => false) [] 7
      (loadValidatedRecord (G := Unit) (fun _ _ => false) [] 7 []
        { url_hash := "k1", url := "u", price := some 200000, area_sqm := some 50 })
      { url_hash := "k1", url := "u", price := some 200000, area_sqm := some 50 }
      = loadValidatedRecord (G := Unit) (fun _ _ => false) [] 7 []
        { url_hash := "k1", url := "u", price := some 200000, area_sqm := some 50 } ∧
    (loadValidatedRecord (G := Unit) (fun _ _ => false) [] 7 []
      { url_hash := "k1", url := "u", price := some 200000,
        area_sqm := some 50 }).countP (fun x => decide (x.url_hash = "k1")) = 1 :=
  ⟨(C1_upsert_convergence (G := Unit) (fun _ _ => false) [] 7 []
      { url_hash := "k1", url := "u", price := some 200000, area_sqm := some 50 }
      (by simp)).2.1,
   (C1_upsert_convergence (G := Unit) (fun _ _ => false) [] 7 []
      { url_hash := "k1", url := "u", price := some 200000, area_sqm := some 50 }
      (by simp)).2.2.1⟩
